import Mathlib

/-!
Verification of the trip-generation request pipeline of the travel-agency
dashboard repository.

The pipeline under study is the `action` handler of the `POST /api/create-trip`
route (source file `src/unnamed/part_000`): it parses the request body, checks
seven required fields, calls a generative-text service, parses the model output
as JSON (`parseMarkdownToJson`), queries an image-search service, and persists
one document.  The client-side duration check of
`src/app/routes/admin/create-trip.tsx` (`handleSubmit`) is embedded as
`clientDurationOk`.

JavaScript values flowing through the handler are embedded as `JsonVal`
(JSON numbers restricted to integers, which suffices for every claim), and the
outcome of every external interaction (body parse, text generation, image
fetch, document creation) is an explicit `Env` record, so the handler becomes
the pure function `action : Env → HttpResp × List Call`, returning the HTTP
response together with the trace of outbound calls it made.
-/

/-- JSON / JavaScript values as they flow through the handler.  Numbers are
restricted to integers (all numeric values in the claims are integral). -/
inductive JsonVal where
  | null : JsonVal
  | bool : Bool → JsonVal
  | num : Int → JsonVal
  | str : String → JsonVal
  | arr : List JsonVal → JsonVal
  | obj : List (String × JsonVal) → JsonVal

/-- Field lookup in an object literal (first binding wins; the request objects
considered here have distinct keys). -/
def lookupField : List (String × JsonVal) → String → Option JsonVal
  | [], _ => none
  | (k, v) :: rest, key => if k = key then some v else lookupField rest key

/-- JavaScript property access `v.k`: `undefined` (here `none`) on anything but
an object literal carrying the key.  (Access on `null` throws in JavaScript;
the one place the handler destructures a possibly-null value handles that case
separately in `action`.) -/
def jsGetField : JsonVal → String → Option JsonVal
  | JsonVal.obj fs, k => lookupField fs k
  | _, _ => none

/-- JavaScript truthiness: `null`, `false`, `0` and `""` are falsy; every
object and array (including the empty array) is truthy. -/
def truthy : JsonVal → Bool
  | JsonVal.null => false
  | JsonVal.bool b => b
  | JsonVal.num n => decide (n ≠ 0)
  | JsonVal.str s => decide (s ≠ "")
  | JsonVal.arr _ => true
  | JsonVal.obj _ => true

/-- Truthiness of a possibly-absent (`undefined`) value. -/
def truthyOpt : Option JsonVal → Bool
  | none => false
  | some v => truthy v

/-- The validation guard of the handler (line 20 of the route source):
`!country || !numberOfDays || !travelStyle || !interests || !budget ||
!groupType || !userId`, negated. -/
def requiredFieldsPresent (rd : JsonVal) : Bool :=
  truthyOpt (jsGetField rd "country") &&
  truthyOpt (jsGetField rd "numberOfDays") &&
  truthyOpt (jsGetField rd "travelStyle") &&
  truthyOpt (jsGetField rd "interests") &&
  truthyOpt (jsGetField rd "budget") &&
  truthyOpt (jsGetField rd "groupType") &&
  truthyOpt (jsGetField rd "userId")

/-- Line 25 of the route source: `Array.isArray(interests) ? interests :
[interests]`.  Note this runs only after the validation guard. -/
def normalizeInterests : JsonVal → List JsonVal
  | JsonVal.arr xs => xs
  | v => [v]

mutual

/-- JavaScript string coercion `String(v)` for the values of this model. -/
def jsToString : JsonVal → String
  | JsonVal.null => "null"
  | JsonVal.bool true => "true"
  | JsonVal.bool false => "false"
  | JsonVal.num n => toString n
  | JsonVal.str s => s
  | JsonVal.arr xs => jsArrToString xs
  | JsonVal.obj _ => "[object Object]"

/-- The `Array.prototype.toString` conversion, i.e. `join(",")`, where `null` elements
render as the empty string. -/
def jsArrToString : List JsonVal → String
  | [] => ""
  | [JsonVal.null] => ""
  | [x] => jsToString x
  | JsonVal.null :: y :: xs => "," ++ jsArrToString (y :: xs)
  | x :: y :: xs => jsToString x ++ "," ++ jsArrToString (y :: xs)

end

/-- Element conversion used by `Array.prototype.join`: `null` becomes the
empty string, everything else its string coercion. -/
def jsElemString : JsonVal → String
  | JsonVal.null => ""
  | v => jsToString v

/-- The JavaScript `xs.join(sep)` for an array. -/
def jsJoin (xs : List JsonVal) (sep : String) : String :=
  String.intercalate sep (xs.map jsElemString)

/-- The `query` parameter of the image-search URL (line 84 of the route
source): the template fragment `country + " " + interestsArray.join(", ") +
" " + travelStyle`.  Note the interests are joined with a comma and a space,
not with single spaces. -/
def buildImageQuery (country : JsonVal) (interestsArray : List JsonVal)
    (travelStyle : JsonVal) : String :=
  jsToString country ++ " " ++ jsJoin interestsArray ", " ++ " " ++
    jsToString travelStyle

/-! ### A small JSON parser and serializer

`parseMarkdownToJson` (imported by the route from `~/lib/utils`, a file that is
not part of the sources here) is modelled from the spec further below; it needs
a plain JSON parser for the text left after fence stripping, and the persistence
step needs `JSON.stringify`.  Numbers are restricted to integers, and string
escapes to the common single-character ones, which suffices for every claim. -/

/-- Drop leading JSON whitespace. -/
def skipWs : List Char → List Char
  | c :: cs =>
    if c = ' ' ∨ c = '\n' ∨ c = '\t' ∨ c = '\r' then skipWs cs else c :: cs
  | [] => []

/-- Single-character JSON string escapes. -/
def escDecode (c : Char) : Option Char :=
  if c = '"' then some '"'
  else if c = '\\' then some '\\'
  else if c = '/' then some '/'
  else if c = 'n' then some '\n'
  else if c = 't' then some '\t'
  else if c = 'r' then some '\r'
  else none

/-- Parse the body of a JSON string (after the opening quote), returning the
decoded characters and the rest of the input. -/
def parseStringBody : List Char → Except String (List Char × List Char)
  | [] => Except.error "unterminated string"
  | '"' :: rest => Except.ok ([], rest)
  | '\\' :: e :: rest =>
    match escDecode e with
    | some c => (parseStringBody rest).map (fun p => (c :: p.1, p.2))
    | none => Except.error "unsupported escape"
  | c :: rest => (parseStringBody rest).map (fun p => (c :: p.1, p.2))

/-- Decimal digits to a natural number (most significant first). -/
def digitsVal (acc : Nat) : List Char → Nat
  | [] => acc
  | d :: ds => digitsVal (acc * 10 + (d.toNat - 48)) ds

/-- Parse an integer JSON number. -/
def parseNumber (cs : List Char) : Except String (Int × List Char) :=
  match cs with
  | '-' :: rest =>
    let ds := rest.takeWhile Char.isDigit
    let rest2 := rest.dropWhile Char.isDigit
    if ds = [] then Except.error "bad number"
    else Except.ok (-(Int.ofNat (digitsVal 0 ds)), rest2)
  | _ =>
    let ds := cs.takeWhile Char.isDigit
    let rest2 := cs.dropWhile Char.isDigit
    if ds = [] then Except.error "bad number"
    else Except.ok (Int.ofNat (digitsVal 0 ds), rest2)

mutual

/-- Fueled recursive-descent JSON value parser. -/
def parseVal : Nat → List Char → Except String (JsonVal × List Char)
  | 0, _ => Except.error "fuel exhausted"
  | fuel + 1, cs =>
    match skipWs cs with
    | [] => Except.error "unexpected end of input"
    | 'n' :: 'u' :: 'l' :: 'l' :: rest => Except.ok (JsonVal.null, rest)
    | 't' :: 'r' :: 'u' :: 'e' :: rest => Except.ok (JsonVal.bool true, rest)
    | 'f' :: 'a' :: 'l' :: 's' :: 'e' :: rest =>
      Except.ok (JsonVal.bool false, rest)
    | '"' :: rest =>
      (parseStringBody rest).map (fun p => (JsonVal.str (String.mk p.1), p.2))
    | '[' :: rest =>
      (match skipWs rest with
       | ']' :: r2 => Except.ok (JsonVal.arr [], r2)
       | cs2 => (parseArrRest fuel cs2).map (fun p => (JsonVal.arr p.1, p.2)))
    | '\x7b' :: rest =>
      (match skipWs rest with
       | '\x7d' :: r2 => Except.ok (JsonVal.obj [], r2)
       | cs2 => (parseObjRest fuel cs2).map (fun p => (JsonVal.obj p.1, p.2)))
    | c :: rest =>
      if c.isDigit ∨ c = '-' then
        (parseNumber (c :: rest)).map (fun p => (JsonVal.num p.1, p.2))
      else Except.error "unexpected character"

/-- Elements of a non-empty JSON array (expects a value next). -/
def parseArrRest : Nat → List Char → Except String (List JsonVal × List Char)
  | 0, _ => Except.error "fuel exhausted"
  | fuel + 1, cs => do
    let (v, r1) ← parseVal fuel cs
    match skipWs r1 with
    | ',' :: r2 => (parseArrRest fuel r2).map (fun p => (v :: p.1, p.2))
    | ']' :: r2 => Except.ok ([v], r2)
    | _ => Except.error "expected comma or closing bracket"

/-- Members of a non-empty JSON object (expects a key next). -/
def parseObjRest :
    Nat → List Char → Except String (List (String × JsonVal) × List Char)
  | 0, _ => Except.error "fuel exhausted"
  | fuel + 1, cs =>
    match skipWs cs with
    | '"' :: rest => do
      let (k, r1) ← parseStringBody rest
      match skipWs r1 with
      | ':' :: r2 => do
        let (v, r3) ← parseVal fuel r2
        (match skipWs r3 with
         | ',' :: r4 =>
           (parseObjRest fuel r4).map (fun p => ((String.mk k, v) :: p.1, p.2))
         | '\x7d' :: r4 => Except.ok ([(String.mk k, v)], r4)
         | _ => Except.error "expected comma or closing brace")
      | _ => Except.error "expected colon"
    | _ => Except.error "expected string key"

end

/-- Parse a whole string as one JSON value (no trailing garbage). -/
def parseJsonStr (s : String) : Except String JsonVal :=
  match parseVal (s.data.length + 1) s.data with
  | Except.error e => Except.error e
  | Except.ok (v, rest) =>
    match skipWs rest with
    | [] => Except.ok v
    | _ => Except.error "unexpected trailing characters"

/-- Escape one character for a JSON string literal. -/
def escapeChar (c : Char) : List Char :=
  if c = '"' then ['\\', '"']
  else if c = '\\' then ['\\', '\\']
  else if c = '\n' then ['\\', 'n']
  else if c = '\t' then ['\\', 't']
  else if c = '\r' then ['\\', 'r']
  else [c]

/-- A JSON string literal for `s`. -/
def quoteJson (s : String) : String :=
  String.mk ('"' :: (s.data.map escapeChar).flatten ++ ['"'])

mutual

/-- The `JSON.stringify` serialization for this value model (used for the `tripDetails`
attribute of the persisted document). -/
def stringify : JsonVal → String
  | JsonVal.null => "null"
  | JsonVal.bool true => "true"
  | JsonVal.bool false => "false"
  | JsonVal.num n => toString n
  | JsonVal.str s => quoteJson s
  | JsonVal.arr xs => "[" ++ stringifyItems xs ++ "]"
  | JsonVal.obj fs => "\x7b" ++ stringifyFields fs ++ "\x7d"

/-- Comma-separated serialization of array elements. -/
def stringifyItems : List JsonVal → String
  | [] => ""
  | [x] => stringify x
  | x :: y :: xs => stringify x ++ "," ++ stringifyItems (y :: xs)

/-- Comma-separated serialization of object members. -/
def stringifyFields : List (String × JsonVal) → String
  | [] => ""
  | [(k, v)] => quoteJson k ++ ":" ++ stringify v
  | (k, v) :: f :: fs =>
    quoteJson k ++ ":" ++ stringify v ++ "," ++ stringifyFields (f :: fs)

end

/-! ### Fence stripping and the itinerary parser -/

/-- Prepend a character to the first line of a non-empty line list. -/
def consHead (c : Char) : List (List Char) → List (List Char)
  | [] => [[c]]
  | l :: ls => (c :: l) :: ls

/-- Split a character list into its lines (always non-empty; a trailing
newline yields a final empty line). -/
def splitLines : List Char → List (List Char)
  | [] => [[]]
  | c :: cs =>
    if c = '\n' then [] :: splitLines cs else consHead c (splitLines cs)

/-- Rejoin lines with newlines (left inverse of `splitLines`). -/
def joinLines : List (List Char) → List Char
  | [] => []
  | [l] => l
  | l :: l2 :: ls => l ++ '\n' :: joinLines (l2 :: ls)

/-- The triple-backtick fence marker. -/
def fenceChars : List Char := ("```" : String).data

/-- Does a line start with the triple-backtick fence marker (possibly followed
by a language tag)? -/
def startsFence (l : List Char) : Bool := fenceChars.isPrefixOf l

/-- First line of a text. -/
def headLine (cs : List Char) : List Char :=
  match splitLines cs with
  | [] => []
  | l :: _ => l

/-- Last line of a text. -/
def lastLine (cs : List Char) : List Char :=
  match (splitLines cs).getLast? with
  | none => []
  | some l => l

/-- Drop the first line when it is a fence marker. -/
def stripLeadFence : List (List Char) → List (List Char)
  | [] => []
  | f :: rest => if startsFence f then rest else f :: rest

/-- Drop the last line when it is a fence marker. -/
def stripTrailFence (ls : List (List Char)) : List (List Char) :=
  match ls.getLast? with
  | none => ls
  | some l => if startsFence l then ls.dropLast else ls

/-- Remove a leading fence line and a trailing fence line, when present. -/
def stripFencesList (cs : List Char) : List Char :=
  joinLines (stripTrailFence (stripLeadFence (splitLines cs)))

/-- String version of `stripFencesList`. -/
def stripFences (raw : String) : String := String.mk (stripFencesList raw.data)

/-- Modelled from the spec: the itinerary parser `parseMarkdownToJson` is
imported by the route from `~/lib/utils`, a file that is not among the sources
here.  Per the spec it strips a leading/trailing fenced-code marker (triple
backtick, optionally annotated with a language tag) if present, then parses the
remainder as JSON, failing when the stripped text is not valid JSON (numbers
restricted to integers in this model). -/
def parseMarkdownToJson (raw : String) : Except String JsonVal :=
  parseJsonStr (stripFences raw)

/-- The three-presentation wrapper used by the fence-invariance claim: the
given text inside a fenced code block annotated with `tag` (empty tag for a
bare fence). -/
def wrapFence (tag s : String) : String :=
  String.mk ((fenceChars ++ tag.data) ++ '\n' :: (s.data ++ '\n' :: fenceChars))

/-! ### The request pipeline (`action` of `POST /api/create-trip`)

Every interaction with the outside world is an explicit outcome recorded in
`Env` (`Except.error` is a thrown JavaScript error, carried as its message
string), so the handler becomes a pure function from `Env` to the HTTP
response paired with the trace of outbound calls. -/

/-- Outcome of `fetch` on the image-search URL: HTTP success flag and status,
and the outcome of reading the response body as JSON. -/
structure FetchResp where
  ok : Bool
  status : Nat
  jsonBody : Except String JsonVal

/-- Outcomes of the four external interactions of one request, plus the
current timestamp (`new Date().toISOString()`). -/
structure Env where
  bodyResult : Except String JsonVal
  genResult : Except String String
  fetchResult : Except String FetchResp
  createId : Except String String
  now : String

/-- The attribute map passed to `databases.createDocument` (lines 94-104 of
the route source). -/
structure TripDoc where
  tripDetails : String
  createdAt : String
  imageUrls : List JsonVal
  userId : JsonVal

/-- One outbound call of the pipeline.  The text-generation call is keyed by
its occurrence only: the prompt is a pure function of the request fields and
its content is not needed by any claim. -/
inductive Call where
  | textGen : Call
  | imageSearch : String → Call
  | createDoc : TripDoc → Call

/-- An HTTP response: status code and JSON body. -/
structure HttpResp where
  status : Nat
  body : JsonVal

/-- HTTP 400 `Missing required fields` response (line 21). -/
def resp400 : HttpResp :=
  { status := 400,
    body := JsonVal.obj [("error", JsonVal.str "Missing required fields")] }

/-- HTTP 500 response of the catch-all handler (lines 107-113), carrying the
thrown error's message. -/
def err500 (msg : String) : HttpResp :=
  { status := 500, body := JsonVal.obj [("error", JsonVal.str msg)] }

/-- One element of the image-URL mapping (line 92):
`result.urls?.regular || null`.  Accessing `.urls` on `null` throws. -/
def elemUrl (r : JsonVal) : Except String JsonVal :=
  match r with
  | JsonVal.null => Except.error "Cannot read properties of null"
  | _ =>
    match jsGetField r "urls" with
    | none => Except.ok JsonVal.null
    | some u =>
      match jsGetField u "regular" with
      | none => Except.ok JsonVal.null
      | some v => Except.ok (if truthy v then v else JsonVal.null)

/-- The `Array.prototype.map` over `elemUrl`, propagating thrown errors. -/
def mapUrls : List JsonVal → Except String (List JsonVal)
  | [] => Except.ok []
  | r :: rs =>
    match elemUrl r with
    | Except.error e => Except.error e
    | Except.ok v =>
      match mapUrls rs with
      | Except.error e => Except.error e
      | Except.ok vs => Except.ok (v :: vs)

/-- The `?.slice(0,3).map(...) || []` chain applied to the looked-up
`results` value: missing or `null` short-circuits to the empty list, an array
is sliced and mapped, anything else makes the chain throw. -/
def resultsToUrls : Option JsonVal → Except String (List JsonVal)
  | none => Except.ok []
  | some JsonVal.null => Except.ok []
  | some (JsonVal.arr xs) => mapUrls (xs.take 3)
  | some _ => Except.error "imageData.results.slice(0,3).map is not a function"

/-- Line 92 of the route source:
`imageData.results?.slice(0,3).map((result) => result.urls?.regular || null)
|| []`.  Property access on `null` throws (the catch-all turns this into the
500 response). -/
def computeImageUrls : JsonVal → Except String (List JsonVal)
  | JsonVal.null => Except.error "Cannot read properties of null"
  | JsonVal.obj fs => resultsToUrls (lookupField fs "results")
  | _ => Except.ok []

/-- The image-search query built from a request body: the `country`,
normalized-interests and `travelStyle` fields fed to `buildImageQuery` (fields
that passed the truthiness guard are present, so the `getD` defaults never
fire on a validated body). -/
def queryOf (rd : JsonVal) : String :=
  buildImageQuery ((jsGetField rd "country").getD JsonVal.null)
    (normalizeInterests ((jsGetField rd "interests").getD JsonVal.null))
    ((jsGetField rd "travelStyle").getD JsonVal.null)

/-- The attribute map persisted for a parsed trip (lines 98-103): the
serialized itinerary, the timestamp, the image URLs and the requesting user. -/
def docFor (rd trip : JsonVal) (imageUrls : List JsonVal) (now : String) :
    TripDoc :=
  { tripDetails := stringify trip, createdAt := now, imageUrls := imageUrls,
    userId := (jsGetField rd "userId").getD JsonVal.null }

/-- The pipeline after the validation guard (lines 24-105): normalize the
interests, call text generation, parse its output, fetch the image search,
read its body, compute the image URLs, and create the document.  Any thrown
error falls through to the catch-all 500 response; the trace records the
outbound calls made up to that point. -/
def runPipeline (env : Env) (rd : JsonVal) : HttpResp × List Call :=
  match env.genResult with
  | Except.error msg => (err500 msg, [Call.textGen])
  | Except.ok txt =>
    match parseMarkdownToJson txt with
    | Except.error msg => (err500 msg, [Call.textGen])
    | Except.ok trip =>
      match env.fetchResult with
      | Except.error msg =>
        (err500 msg, [Call.textGen, Call.imageSearch (queryOf rd)])
      | Except.ok fr =>
        -- a non-success status is only logged (lines 87-89); execution continues
        match fr.jsonBody with
        | Except.error msg =>
          (err500 msg, [Call.textGen, Call.imageSearch (queryOf rd)])
        | Except.ok imageData =>
          match computeImageUrls imageData with
          | Except.error msg =>
            (err500 msg, [Call.textGen, Call.imageSearch (queryOf rd)])
          | Except.ok imageUrls =>
            match env.createId with
            | Except.error msg =>
              (err500 msg,
               [Call.textGen, Call.imageSearch (queryOf rd),
                Call.createDoc (docFor rd trip imageUrls env.now)])
            | Except.ok i =>
              ({ status := 200, body := JsonVal.obj [("id", JsonVal.str i)] },
               [Call.textGen, Call.imageSearch (queryOf rd),
                Call.createDoc (docFor rd trip imageUrls env.now)])

/-- Is the value JSON `null`?  (Destructuring `null` throws in JavaScript.) -/
def isNullVal : JsonVal → Bool
  | JsonVal.null => true
  | _ => false

/-- The `action` handler (lines 7-114): read the body as JSON (a parse failure
or destructuring a `null` body throws to the catch-all), check the seven
required fields, and run the pipeline. -/
def action (env : Env) : HttpResp × List Call :=
  match env.bodyResult with
  | Except.error msg => (err500 msg, [])
  | Except.ok rd =>
    if isNullVal rd then (err500 "Cannot destructure property of null", [])
    else if requiredFieldsPresent rd then runPipeline env rd
    else (resp400, [])

/-- Is a call a document-store create? -/
def isCreate : Call → Bool
  | Call.createDoc _ => true
  | _ => false

/-- Number of document-store create calls in a trace. -/
def countCreate (tr : List Call) : Nat := (tr.filter isCreate).length

/-- Is every element of the list a JSON string? -/
def allStrings (l : List JsonVal) : Bool :=
  l.all (fun v => match v with | JsonVal.str _ => true | _ => false)

/-- The duration guard of the client-side form handler (`handleSubmit`,
lines 60-64 of `src/app/routes/admin/create-trip.tsx`): the submission
proceeds unless `duration < 1 || duration > 10`. -/
def clientDurationOk (d : Int) : Bool :=
  if d < 1 ∨ d > 10 then false else true

/-! ### Concrete sample data for witnesses and counterexamples -/

/-- A well-formed request body with all seven required fields. -/
def rdGood : JsonVal :=
  JsonVal.obj
    [("country", JsonVal.str "Japan"), ("numberOfDays", JsonVal.num 5),
     ("travelStyle", JsonVal.str "Luxury"),
     ("interests", JsonVal.arr [JsonVal.str "food", JsonVal.str "temples"]),
     ("budget", JsonVal.str "Mid"), ("groupType", JsonVal.str "couple"),
     ("userId", JsonVal.str "u1")]

/-- A successful image-search response with no usable results. -/
def goodFetch : FetchResp :=
  { ok := true, status := 200, jsonBody := Except.ok (JsonVal.obj []) }

/-- An environment in which every external interaction succeeds. -/
def envSuccess : Env :=
  { bodyResult := Except.ok rdGood, genResult := Except.ok "null",
    fetchResult := Except.ok goodFetch, createId := Except.ok "trip123",
    now := "2026-01-01T00:00:00.000Z" }

/-- The image-search query produced for `rdGood`. -/
def queryGood : String := "Japan food, temples Luxury"

/-- The document persisted on a successful run over `envSuccess`. -/
def docGood : TripDoc :=
  { tripDetails := "null", createdAt := "2026-01-01T00:00:00.000Z",
    imageUrls := [], userId := JsonVal.str "u1" }

/-- Variant of `envSuccess` with the image-search fetch raising a network error. -/
def envNetErr : Env := { envSuccess with fetchResult := Except.error "network error" }

/-- A non-success image-search response whose JSON body carries no `results`
field (the shape of a real image-search error body). -/
def badStatusFetch : FetchResp :=
  { ok := false, status := 503,
    jsonBody :=
      Except.ok (JsonVal.obj
        [("errors", JsonVal.arr [JsonVal.str "Rate Limit Exceeded"])]) }

/-- Variant of `envSuccess` with a non-success image-search response. -/
def envBadStatus : Env := { envSuccess with fetchResult := Except.ok badStatusFetch }

/-- A request body whose `userId` field is absent. -/
def rdNoUser : JsonVal :=
  JsonVal.obj
    [("country", JsonVal.str "Japan"), ("numberOfDays", JsonVal.num 5),
     ("travelStyle", JsonVal.str "Luxury"),
     ("interests", JsonVal.str "food"), ("budget", JsonVal.str "Mid"),
     ("groupType", JsonVal.str "couple")]

/-- Variant of `envSuccess` with the `userId` field missing from the body. -/
def envNoUser : Env := { envSuccess with bodyResult := Except.ok rdNoUser }

/-- A request body whose `interests` field is the empty array. -/
def rdEmptyInterests : JsonVal :=
  JsonVal.obj
    [("country", JsonVal.str "Japan"), ("numberOfDays", JsonVal.num 5),
     ("travelStyle", JsonVal.str "Luxury"), ("interests", JsonVal.arr []),
     ("budget", JsonVal.str "Mid"), ("groupType", JsonVal.str "couple"),
     ("userId", JsonVal.str "u1")]

/-- Environment carrying `rdEmptyInterests`; text generation fails, isolating
how far past validation the pipeline gets. -/
def envEmptyInterests : Env :=
  { envSuccess with
    bodyResult := Except.ok rdEmptyInterests
    genResult := Except.error "generation failed" }

/-- A request body with `numberOfDays = 11`. -/
def rdElevenDays : JsonVal :=
  JsonVal.obj
    [("country", JsonVal.str "Japan"), ("numberOfDays", JsonVal.num 11),
     ("travelStyle", JsonVal.str "Luxury"),
     ("interests", JsonVal.str "food"), ("budget", JsonVal.str "Mid"),
     ("groupType", JsonVal.str "couple"), ("userId", JsonVal.str "u1")]

/-- Environment carrying `rdElevenDays`; text generation fails, isolating
how far past validation the pipeline gets. -/
def envElevenDays : Env :=
  { envSuccess with
    bodyResult := Except.ok rdElevenDays
    genResult := Except.error "generation failed" }

/-- A sample JSON object text. -/
def jsonSample : String := "\x7b\"a\": 1\x7d"

/-- The value `jsonSample` denotes. -/
def jsonSampleVal : JsonVal := JsonVal.obj [("a", JsonVal.num 1)]

/-- An image-search body whose single result has no `urls` field. -/
def dNoUrls : JsonVal := JsonVal.obj [("results", JsonVal.arr [JsonVal.obj []])]

/-- Variant of `envSuccess` with an image-search result lacking `urls.regular`. -/
def envNoUrls : Env :=
  { envSuccess with
    fetchResult :=
      Except.ok { ok := true, status := 200, jsonBody := Except.ok dNoUrls } }

/-- The document persisted on a successful run over `envNoUrls`: the missing
`urls.regular` is persisted as `null`. -/
def docNoUrls : TripDoc :=
  { tripDetails := "null", createdAt := "2026-01-01T00:00:00.000Z",
    imageUrls := [JsonVal.null], userId := JsonVal.str "u1" }

/-- Variant of `envSuccess` with an unparseable request body. -/
def envBadBody : Env :=
  { envSuccess with
    bodyResult := Except.error "Unexpected token o in JSON at position 1" }

/-- A request body whose `interests` field is the empty string (falsy). -/
def rdBlankInterests : JsonVal :=
  JsonVal.obj
    [("country", JsonVal.str "Japan"), ("numberOfDays", JsonVal.num 5),
     ("travelStyle", JsonVal.str "Luxury"), ("interests", JsonVal.str ""),
     ("budget", JsonVal.str "Mid"), ("groupType", JsonVal.str "couple"),
     ("userId", JsonVal.str "u1")]

/-- Variant of `envSuccess` with the falsy-`interests` body. -/
def envBlankInterests : Env :=
  { envSuccess with bodyResult := Except.ok rdBlankInterests }

/-! ### Properties of line splitting and fence stripping -/

theorem splitLines_ne_nil (cs : List Char) : splitLines cs ≠ [] := by
  induction cs with
  | nil => simp [splitLines]
  | cons c cs ih =>
    by_cases hc : c = '\n'
    · simp [splitLines, hc]
    · simp only [splitLines, if_neg hc]
      cases h : splitLines cs with
      | nil => exact absurd h ih
      | cons l ls => simp [consHead]

theorem joinLines_splitLines (cs : List Char) :
    joinLines (splitLines cs) = cs := by
  induction cs with
  | nil => rfl
  | cons c cs ih =>
    by_cases hc : c = '\n'
    · subst hc
      simp only [splitLines, if_pos rfl]
      cases h : splitLines cs with
      | nil => exact absurd h (splitLines_ne_nil cs)
      | cons l ls =>
        rw [h] at ih
        simp only [joinLines]
        rw [ih]
        rfl
    · simp only [splitLines, if_neg hc]
      cases h : splitLines cs with
      | nil => exact absurd h (splitLines_ne_nil cs)
      | cons l ls =>
        rw [h] at ih
        cases ls with
        | nil =>
          simp only [consHead, joinLines]
          simp only [joinLines] at ih
          rw [ih]
        | cons l2 ls2 =>
          simp only [consHead, joinLines] at ih ⊢
          rw [← ih]
          rfl

theorem splitLines_noNl (cs : List Char) (h : '\n' ∉ cs) :
    splitLines cs = [cs] := by
  induction cs with
  | nil => rfl
  | cons c cs ih =>
    rw [List.mem_cons, not_or] at h
    have hc : c ≠ '\n' := fun e => h.1 e.symm
    simp only [splitLines, if_neg hc, ih h.2, consHead]

theorem splitLines_fenceLine (f cs : List Char) (h : '\n' ∉ f) :
    splitLines (f ++ '\n' :: cs) = f :: splitLines cs := by
  induction f with
  | nil => simp [splitLines]
  | cons c f ih =>
    rw [List.mem_cons, not_or] at h
    have hc : c ≠ '\n' := fun e => h.1 e.symm
    have ih2 := ih h.2
    rw [List.cons_append, splitLines, if_neg hc, ih2, consHead]

theorem splitLines_lastFence (cs g : List Char) (h : '\n' ∉ g) :
    splitLines (cs ++ '\n' :: g) = splitLines cs ++ [g] := by
  induction cs with
  | nil =>
    simp [splitLines, splitLines_noNl g h]
  | cons c cs ih =>
    by_cases hc : c = '\n'
    · subst hc
      rw [List.cons_append, splitLines, if_pos rfl, ih]
      rw [show splitLines ('\n' :: cs) = [] :: splitLines cs from by
        rw [splitLines, if_pos rfl]]
      rfl
    · rw [List.cons_append, splitLines, if_neg hc, ih]
      rw [show splitLines (c :: cs) = consHead c (splitLines cs) from by
        rw [splitLines, if_neg hc]]
      cases h2 : splitLines cs with
      | nil => exact absurd h2 (splitLines_ne_nil cs)
      | cons l ls =>
        rw [consHead, List.cons_append, consHead]
        exact (List.cons_append _ _ _).symm

theorem startsFence_fence_append (t : List Char) :
    startsFence (fenceChars ++ t) = true := by
  rw [startsFence, List.isPrefixOf_iff_prefix]
  exact List.prefix_append fenceChars t

theorem stripFences_id (s : String)
    (h1 : startsFence (headLine s.data) = false)
    (h2 : startsFence (lastLine s.data) = false) :
    stripFences s = s := by
  unfold stripFences stripFencesList
  cases e : splitLines s.data with
  | nil => exact absurd e (splitLines_ne_nil _)
  | cons l ls =>
    have hh : headLine s.data = l := by rw [headLine, e]
    rw [hh] at h1
    rw [stripLeadFence, if_neg (by rw [h1]; exact Bool.false_ne_true)]
    cases e2 : (l :: ls).getLast? with
    | none => simp at e2
    | some y =>
      have hy : lastLine s.data = y := by rw [lastLine, e, e2]
      rw [hy] at h2
      simp only [stripTrailFence, e2]
      rw [if_neg (by rw [h2]; exact Bool.false_ne_true)]
      rw [← e, joinLines_splitLines]

theorem stripFences_wrap (tag s : String) (h : '\n' ∉ tag.data) :
    stripFences (wrapFence tag s) = s := by
  have hnl : '\n' ∉ fenceChars ++ tag.data := by
    intro hm
    rcases List.mem_append.mp hm with h1 | h2
    · revert h1; decide
    · exact h h2
  unfold stripFences wrapFence stripFencesList
  rw [show (String.mk ((fenceChars ++ tag.data) ++ '\n' ::
        (s.data ++ '\n' :: fenceChars))).data =
      (fenceChars ++ tag.data) ++ '\n' :: (s.data ++ '\n' :: fenceChars)
    from rfl]
  rw [splitLines_fenceLine _ _ hnl]
  rw [splitLines_lastFence _ _ (by decide : '\n' ∉ fenceChars)]
  rw [stripLeadFence, if_pos (startsFence_fence_append tag.data)]
  simp only [stripTrailFence, List.getLast?_concat]
  rw [if_pos (by decide : startsFence fenceChars = true)]
  rw [List.dropLast_concat, joinLines_splitLines]

/-! ### The claims -/

/-- Claim C6: for every JSON object, the parser (`parseMarkdownToJson`)
applied to (a) the bare JSON text, (b) the same JSON wrapped in a fenced code
block with no language tag, and (c) the same JSON wrapped in a fenced code
block tagged `json`, returns the same parsed structure in all three cases.
The parser is modelled from the spec (its source, `~/lib/utils`, is not under
the sources here).  The hypotheses state that the bare text is JSON denoting
`v` and that neither its first nor its last line itself starts with a fence
marker (true of any bare JSON object text, which starts with a brace). -/
theorem claim_C6 (s : String) (v : JsonVal)
    (h0 : parseJsonStr s = Except.ok v)
    (h1 : startsFence (headLine s.data) = false)
    (h2 : startsFence (lastLine s.data) = false) :
    parseMarkdownToJson s = Except.ok v ∧
    parseMarkdownToJson (wrapFence "" s) = Except.ok v ∧
    parseMarkdownToJson (wrapFence "json" s) = Except.ok v := by
  refine ⟨?_, ?_, ?_⟩
  · rw [parseMarkdownToJson, stripFences_id s h1 h2, h0]
  · rw [parseMarkdownToJson,
      stripFences_wrap _ _ (by decide : '\n' ∉ String.data ""), h0]
  · rw [parseMarkdownToJson,
      stripFences_wrap _ _ (by decide : '\n' ∉ String.data "json"), h0]

/-- Witness for claim C6 at the concrete object text of `jsonSample`. -/
theorem claim_C6_witness :
    (parseJsonStr jsonSample = Except.ok jsonSampleVal ∧
     startsFence (headLine jsonSample.data) = false ∧
     startsFence (lastLine jsonSample.data) = false) ∧
    (parseMarkdownToJson jsonSample = Except.ok jsonSampleVal ∧
     parseMarkdownToJson (wrapFence "" jsonSample) = Except.ok jsonSampleVal ∧
     parseMarkdownToJson (wrapFence "json" jsonSample) =
       Except.ok jsonSampleVal) :=
  ⟨⟨rfl, rfl, rfl⟩, claim_C6 jsonSample jsonSampleVal rfl rfl rfl⟩

/-! ### Helper lemmas about the pipeline -/

theorem mapUrls_length (xs l : List JsonVal) (h : mapUrls xs = Except.ok l) :
    l.length = xs.length := by
  induction xs generalizing l with
  | nil =>
    unfold mapUrls at h
    cases h
    rfl
  | cons r rs ih =>
    unfold mapUrls at h
    cases he : elemUrl r with
    | error e => rw [he] at h; exact Except.noConfusion h
    | ok v =>
      rw [he] at h
      cases hm : mapUrls rs with
      | error e => rw [hm] at h; exact Except.noConfusion h
      | ok vs =>
        rw [hm] at h
        cases h
        simp [ih vs hm]

theorem computeImageUrls_len (d : JsonVal) (l : List JsonVal)
    (h : computeImageUrls d = Except.ok l) : l.length ≤ 3 := by
  cases d with
  | null => exact Except.noConfusion h
  | bool b => cases h; simp
  | num n => cases h; simp
  | str s => cases h; simp
  | arr xs => cases h; simp
  | obj fs =>
    have h2 : resultsToUrls (lookupField fs "results") = Except.ok l := h
    cases hr : lookupField fs "results" with
    | none =>
      rw [hr] at h2
      cases h2
      simp
    | some v =>
      rw [hr] at h2
      cases v with
      | null => cases h2; simp
      | bool b => exact Except.noConfusion h2
      | num n => exact Except.noConfusion h2
      | str s => exact Except.noConfusion h2
      | obj gs => exact Except.noConfusion h2
      | arr xs =>
        rw [mapUrls_length _ _ h2]
        exact List.length_take_le 3 xs

theorem computeImageUrls_noResults (d : JsonVal) (hnn : isNullVal d = false)
    (hr : jsGetField d "results" = none) :
    computeImageUrls d = Except.ok [] := by
  cases d with
  | null => exact Bool.noConfusion hnn
  | bool b => rfl
  | num n => rfl
  | str s => rfl
  | arr xs => rfl
  | obj fs =>
    have hr2 : lookupField fs "results" = none := hr
    show resultsToUrls (lookupField fs "results") = Except.ok []
    rw [hr2]
    rfl

theorem action_valid (env : Env) (rd : JsonVal)
    (hb : env.bodyResult = Except.ok rd) (hnn : isNullVal rd = false)
    (hv : requiredFieldsPresent rd = true) :
    action env = runPipeline env rd := by
  unfold action
  rw [hb]
  simp only [hnn, hv, if_true, if_false]
  rfl

theorem action_invalid (env : Env) (rd : JsonVal)
    (hb : env.bodyResult = Except.ok rd) (hnn : isNullVal rd = false)
    (hv : requiredFieldsPresent rd = false) :
    action env = (resp400, []) := by
  unfold action
  rw [hb]
  simp only [hnn, hv, if_false]
  rfl

theorem runPipeline_genError (env : Env) (rd : JsonVal) (msg : String)
    (hg : env.genResult = Except.error msg) :
    runPipeline env rd = (err500 msg, [Call.textGen]) := by
  unfold runPipeline
  rw [hg]

theorem runPipeline_parseError (env : Env) (rd : JsonVal) (txt msg : String)
    (hg : env.genResult = Except.ok txt)
    (hp : parseMarkdownToJson txt = Except.error msg) :
    runPipeline env rd = (err500 msg, [Call.textGen]) := by
  unfold runPipeline
  rw [hg]
  simp only [hp]

theorem runPipeline_fetchError (env : Env) (rd : JsonVal) (txt : String)
    (trip : JsonVal) (msg : String)
    (hg : env.genResult = Except.ok txt)
    (hp : parseMarkdownToJson txt = Except.ok trip)
    (hf : env.fetchResult = Except.error msg) :
    runPipeline env rd =
      (err500 msg, [Call.textGen, Call.imageSearch (queryOf rd)]) := by
  unfold runPipeline
  rw [hg]
  simp only [hp, hf]

theorem runPipeline_bodyError (env : Env) (rd : JsonVal) (txt : String)
    (trip : JsonVal) (fr : FetchResp) (msg : String)
    (hg : env.genResult = Except.ok txt)
    (hp : parseMarkdownToJson txt = Except.ok trip)
    (hf : env.fetchResult = Except.ok fr)
    (hj : fr.jsonBody = Except.error msg) :
    runPipeline env rd =
      (err500 msg, [Call.textGen, Call.imageSearch (queryOf rd)]) := by
  unfold runPipeline
  rw [hg]
  simp only [hp, hf, hj]

theorem runPipeline_urlsError (env : Env) (rd : JsonVal) (txt : String)
    (trip : JsonVal) (fr : FetchResp) (d : JsonVal) (msg : String)
    (hg : env.genResult = Except.ok txt)
    (hp : parseMarkdownToJson txt = Except.ok trip)
    (hf : env.fetchResult = Except.ok fr) (hj : fr.jsonBody = Except.ok d)
    (hu : computeImageUrls d = Except.error msg) :
    runPipeline env rd =
      (err500 msg, [Call.textGen, Call.imageSearch (queryOf rd)]) := by
  unfold runPipeline
  rw [hg]
  simp only [hp, hf, hj, hu]

theorem runPipeline_createError (env : Env) (rd : JsonVal) (txt : String)
    (trip : JsonVal) (fr : FetchResp) (d : JsonVal) (urls : List JsonVal)
    (msg : String)
    (hg : env.genResult = Except.ok txt)
    (hp : parseMarkdownToJson txt = Except.ok trip)
    (hf : env.fetchResult = Except.ok fr) (hj : fr.jsonBody = Except.ok d)
    (hu : computeImageUrls d = Except.ok urls)
    (hc : env.createId = Except.error msg) :
    runPipeline env rd =
      (err500 msg,
       [Call.textGen, Call.imageSearch (queryOf rd),
        Call.createDoc (docFor rd trip urls env.now)]) := by
  unfold runPipeline
  rw [hg]
  simp only [hp, hf, hj, hu, hc]

theorem runPipeline_success (env : Env) (rd : JsonVal) (txt : String)
    (trip : JsonVal) (fr : FetchResp) (d : JsonVal) (urls : List JsonVal)
    (i : String)
    (hg : env.genResult = Except.ok txt)
    (hp : parseMarkdownToJson txt = Except.ok trip)
    (hf : env.fetchResult = Except.ok fr) (hj : fr.jsonBody = Except.ok d)
    (hu : computeImageUrls d = Except.ok urls)
    (hc : env.createId = Except.ok i) :
    runPipeline env rd =
      ({ status := 200, body := JsonVal.obj [("id", JsonVal.str i)] },
       [Call.textGen, Call.imageSearch (queryOf rd),
        Call.createDoc (docFor rd trip urls env.now)]) := by
  unfold runPipeline
  rw [hg]
  simp only [hp, hf, hj, hu, hc]

theorem action_bodyError (env : Env) (msg : String)
    (hb : env.bodyResult = Except.error msg) :
    action env = (err500 msg, []) := by
  unfold action
  rw [hb]

theorem action_nullBody (env : Env) (rd : JsonVal)
    (hb : env.bodyResult = Except.ok rd) (hnull : isNullVal rd = true) :
    action env = (err500 "Cannot destructure property of null", []) := by
  unfold action
  rw [hb]
  simp only [hnull, if_true]

/-- Claim C2: for every request in which any one of the seven required fields
(country, numberOfDays, travelStyle, interests, budget, groupType, userId) is
absent or falsy, the handler returns HTTP 400 with body
`error: Missing required fields` and makes zero outbound calls.  The
hypothesis `isNullVal rd = false` restricts to bodies that destructure at all
(a JSON `null` body throws before the field check, like an unparseable one). -/
theorem claim_C2 (env : Env) (rd : JsonVal)
    (hb : env.bodyResult = Except.ok rd) (hnn : isNullVal rd = false)
    (hmiss : requiredFieldsPresent rd = false) :
    action env = (resp400, []) :=
  action_invalid env rd hb hnn hmiss

/-- Witness for claim C2: a request body with no `userId` yields the 400
response and an empty call trace. -/
theorem claim_C2_witness :
    (envNoUser.bodyResult = Except.ok rdNoUser ∧ isNullVal rdNoUser = false ∧
     requiredFieldsPresent rdNoUser = false) ∧
    action envNoUser = (resp400, []) :=
  ⟨⟨rfl, rfl, rfl⟩, claim_C2 envNoUser rdNoUser rfl rfl rfl⟩

/-- Claim C10: for every POST request whose body is not valid JSON, parsing
of the body throws before the required-field validation runs: the response is
the HTTP 500 failure payload carrying the parse error's message (not the 400
validation response), and no outbound call is made. -/
theorem claim_C10 (env : Env) (msg : String)
    (hb : env.bodyResult = Except.error msg) :
    action env = (err500 msg, []) ∧ (err500 msg).status = 500 := by
  constructor
  · unfold action
    rw [hb]
  · rfl

/-- Witness for claim C10 at a concrete malformed body. -/
theorem claim_C10_witness :
    envBadBody.bodyResult =
      Except.error "Unexpected token o in JSON at position 1" ∧
    action envBadBody =
      (err500 "Unexpected token o in JSON at position 1", []) :=
  ⟨rfl, (claim_C10 envBadBody "Unexpected token o in JSON at position 1" rfl).1⟩

/-- Claim C7: for every valid TripRequest on a fully successful run
(generation, parsing, image fetch and persistence all succeed), the response
body is exactly the one-field object `id`, whose value is the identifier
returned by the document-store create call. -/
theorem claim_C7 (env : Env) (rd : JsonVal) (txt : String) (trip : JsonVal)
    (fr : FetchResp) (d : JsonVal) (urls : List JsonVal) (i : String)
    (hb : env.bodyResult = Except.ok rd) (hnn : isNullVal rd = false)
    (hv : requiredFieldsPresent rd = true)
    (hg : env.genResult = Except.ok txt)
    (hp : parseMarkdownToJson txt = Except.ok trip)
    (hf : env.fetchResult = Except.ok fr) (hj : fr.jsonBody = Except.ok d)
    (hu : computeImageUrls d = Except.ok urls)
    (hc : env.createId = Except.ok i) :
    (action env).1 =
      { status := 200, body := JsonVal.obj [("id", JsonVal.str i)] } := by
  rw [action_valid env rd hb hnn hv,
    runPipeline_success env rd txt trip fr d urls i hg hp hf hj hu hc]

/-- Witness for claim C7 on the fully successful environment. -/
theorem claim_C7_witness :
    (envSuccess.bodyResult = Except.ok rdGood ∧
     requiredFieldsPresent rdGood = true ∧
     envSuccess.genResult = Except.ok "null" ∧
     parseMarkdownToJson "null" = Except.ok JsonVal.null ∧
     envSuccess.fetchResult = Except.ok goodFetch ∧
     goodFetch.jsonBody = Except.ok (JsonVal.obj []) ∧
     computeImageUrls (JsonVal.obj []) = Except.ok [] ∧
     envSuccess.createId = Except.ok "trip123") ∧
    (action envSuccess).1 =
      { status := 200, body := JsonVal.obj [("id", JsonVal.str "trip123")] } :=
  ⟨⟨rfl, rfl, rfl, rfl, rfl, rfl, rfl, rfl⟩,
   claim_C7 envSuccess rdGood "null" JsonVal.null goodFetch (JsonVal.obj [])
     [] "trip123" rfl rfl rfl rfl rfl rfl rfl rfl rfl⟩

/-- Counterexample for claim C3: at `country="Japan"`,
`interests=["food","temples"]`, `travelStyle="Luxury"`, the image-search query
the handler builds is NOT `Japan food temples Luxury` — the interests are
joined with a comma and a space, not with single spaces. -/
theorem claim_C3_counterexample :
    buildImageQuery (JsonVal.str "Japan")
      [JsonVal.str "food", JsonVal.str "temples"] (JsonVal.str "Luxury") ≠
    "Japan food temples Luxury" := by decide

/-- Claim C3 (amended): the image-search query string joins the country, the
interests (these comma-and-space separated, as `interestsArray.join(", ")`
produces) and the travel style; for `country="Japan"`,
`interests=["food","temples"]`, `travelStyle="Luxury"` it equals
`Japan food, temples Luxury`, and that is the query of the image-search call
in the trace of a run on such a request. -/
theorem claim_C3_amended :
    buildImageQuery (JsonVal.str "Japan")
      [JsonVal.str "food", JsonVal.str "temples"] (JsonVal.str "Luxury") =
      "Japan food, temples Luxury" ∧
    Call.imageSearch "Japan food, temples Luxury" ∈ (action envSuccess).2 := by
  constructor
  · decide
  · rw [show (action envSuccess).2 =
        [Call.textGen, Call.imageSearch "Japan food, temples Luxury",
         Call.createDoc docGood] from rfl]
    exact List.Mem.tail _ (List.Mem.head _)

/-- Counterexample for claim C4: a request whose `interests` is the empty
array has an empty normalized interests sequence, yet it is NOT rejected: the
validation guard only tests JavaScript truthiness, under which `[]` is truthy
(and normalization runs only after the guard), so the request proceeds to the
outbound calls (here the response is 500 from a failed generation call, not
400, and the trace is non-empty). -/
theorem claim_C4_counterexample :
    requiredFieldsPresent rdEmptyInterests = true ∧
    normalizeInterests
      ((jsGetField rdEmptyInterests "interests").getD JsonVal.null) = [] ∧
    (action envEmptyInterests).1.status ≠ 400 ∧
    (action envEmptyInterests).2 ≠ [] := by
  refine ⟨rfl, rfl, ?_, ?_⟩
  · rw [show (action envEmptyInterests).1.status = 500 from rfl]
    decide
  · rw [show (action envEmptyInterests).2 = [Call.textGen] from rfl]
    exact List.cons_ne_nil _ _

/-- Claim C4 (amended): the validation guard tests only the truthiness of the
raw `interests` value (normalization to an array happens after the guard, so
an empty array — truthy in JavaScript — passes, per the counterexample);
every request whose `interests` value is falsy (absent, empty string, `null`,
`0`, `false`) is rejected with the validation failure response and makes no
outbound calls. -/
theorem claim_C4_amended (env : Env) (rd : JsonVal)
    (hb : env.bodyResult = Except.ok rd) (hnn : isNullVal rd = false)
    (hfalsy : truthyOpt (jsGetField rd "interests") = false) :
    action env = (resp400, []) := by
  apply action_invalid env rd hb hnn
  unfold requiredFieldsPresent
  rw [hfalsy]
  simp

/-- Witness for the amended claim C4: empty-string interests get the 400
response and an empty trace. -/
theorem claim_C4_witness :
    (envBlankInterests.bodyResult = Except.ok rdBlankInterests ∧
     isNullVal rdBlankInterests = false ∧
     truthyOpt (jsGetField rdBlankInterests "interests") = false) ∧
    action envBlankInterests = (resp400, []) :=
  ⟨⟨rfl, rfl, rfl⟩, claim_C4_amended envBlankInterests rdBlankInterests rfl rfl rfl⟩

/-- Counterexample for claim C5: the request body with `numberOfDays = 11`
passes the handler's validation (the guard only tests truthiness) and
proceeds to the outbound calls, although 11 exceeds the claimed bound of 10. -/
theorem claim_C5_counterexample :
    requiredFieldsPresent rdElevenDays = true ∧
    jsGetField rdElevenDays "numberOfDays" = some (JsonVal.num 11) ∧
    (action envElevenDays).2 ≠ [] ∧
    ¬ ((11 : Int) ≤ 10) := by
  refine ⟨rfl, rfl, ?_, by decide⟩
  rw [show (action envElevenDays).2 = [Call.textGen] from rfl]
  exact List.cons_ne_nil _ _

/-- Claim C5 (amended): a request that passes the handler's validation is
only guaranteed a present, truthy `numberOfDays` (in particular any nonzero
number passes, such as 11); the bound 1 ≤ duration ≤ 10 is enforced only by
the client-side form handler `handleSubmit`, whose guard admits exactly the
durations between 1 and 10. -/
theorem claim_C5_amended (rd : JsonVal) (d : Int)
    (hv : requiredFieldsPresent rd = true) :
    truthyOpt (jsGetField rd "numberOfDays") = true ∧
    (clientDurationOk d = true ↔ 1 ≤ d ∧ d ≤ 10) := by
  constructor
  · have h := hv
    unfold requiredFieldsPresent at h
    simp only [Bool.and_eq_true] at h
    exact h.1.1.1.1.1.2
  · unfold clientDurationOk
    by_cases hd : d < 1 ∨ d > 10
    · rw [if_pos hd]
      constructor
      · intro hh
        exact Bool.noConfusion hh
      · intro hh
        omega
    · rw [if_neg hd]
      constructor
      · intro _
        omega
      · intro _
        rfl

/-- Witness for the amended claim C5 at `rdGood` and duration 5. -/
theorem claim_C5_witness :
    requiredFieldsPresent rdGood = true ∧
    (truthyOpt (jsGetField rdGood "numberOfDays") = true ∧
     (clientDurationOk 5 = true ↔ 1 ≤ (5 : Int) ∧ (5 : Int) ≤ 10)) :=
  ⟨rfl, claim_C5_amended rdGood 5 rfl⟩

/-- Counterexample for claim C1: when the image-search HTTP fetch raises a
network error, the pipeline does NOT reach persistence and does NOT respond
with success — the thrown error propagates to the catch-all handler, which
returns the 500 response; no document-store create call is made even though
persistence would have succeeded (`createId` is a success outcome). -/
theorem claim_C1_counterexample :
    envNetErr.fetchResult = Except.error "network error" ∧
    envNetErr.createId = Except.ok "trip123" ∧
    (action envNetErr).1.status = 500 ∧
    countCreate (action envNetErr).2 = 0 :=
  ⟨rfl, rfl, rfl, rfl⟩

/-- Claim C1 (amended): when the image-search call completes with a
non-success HTTP status and a JSON body carrying no `results` field, the
pipeline still proceeds to the persistence step and, if persistence succeeds,
responds with success, with persisted `imageUrls` equal to the empty
sequence; but when the fetch itself raises (network error), the error
propagates to the catch-all handler — HTTP 500, no persistence (per the
counterexample). -/
theorem claim_C1_amended (env : Env) (rd : JsonVal) (txt : String)
    (trip : JsonVal) (fr : FetchResp) (d : JsonVal) (i : String)
    (hb : env.bodyResult = Except.ok rd) (hnn : isNullVal rd = false)
    (hv : requiredFieldsPresent rd = true)
    (hg : env.genResult = Except.ok txt)
    (hp : parseMarkdownToJson txt = Except.ok trip)
    (hf : env.fetchResult = Except.ok fr) (_hok : fr.ok = false)
    (hj : fr.jsonBody = Except.ok d) (hdn : isNullVal d = false)
    (hdr : jsGetField d "results" = none)
    (hc : env.createId = Except.ok i) :
    (action env).1 =
      { status := 200, body := JsonVal.obj [("id", JsonVal.str i)] } ∧
    Call.createDoc (docFor rd trip [] env.now) ∈ (action env).2 := by
  have hu := computeImageUrls_noResults d hdn hdr
  rw [action_valid env rd hb hnn hv,
    runPipeline_success env rd txt trip fr d [] i hg hp hf hj hu hc]
  exact ⟨rfl, List.Mem.tail _ (List.Mem.tail _ (List.Mem.head _))⟩

/-- Witness for the amended claim C1: a 503 image-search response with an
error body still produces a successful run persisting empty `imageUrls`. -/
theorem claim_C1_witness :
    (envBadStatus.fetchResult = Except.ok badStatusFetch ∧
     badStatusFetch.ok = false ∧
     jsGetField
       (JsonVal.obj [("errors", JsonVal.arr [JsonVal.str "Rate Limit Exceeded"])])
       "results" = none ∧
     envBadStatus.createId = Except.ok "trip123") ∧
    ((action envBadStatus).1 =
       { status := 200, body := JsonVal.obj [("id", JsonVal.str "trip123")] } ∧
     Call.createDoc (docFor rdGood JsonVal.null [] "2026-01-01T00:00:00.000Z") ∈
       (action envBadStatus).2) :=
  ⟨⟨rfl, rfl, rfl, rfl⟩,
   claim_C1_amended envBadStatus rdGood "null" JsonVal.null badStatusFetch
     (JsonVal.obj [("errors", JsonVal.arr [JsonVal.str "Rate Limit Exceeded"])])
     "trip123" rfl rfl rfl rfl rfl rfl rfl rfl rfl rfl rfl⟩

/-- Counterexample for claim C8: a successful run whose single image-search
result lacks `urls.regular` persists `imageUrls = [null]` — an entry that is
not a URL string (the handler maps missing `urls.regular` to `null` via
`|| null`). -/
theorem claim_C8_counterexample :
    (action envNoUrls).1.status = 200 ∧
    Call.createDoc docNoUrls ∈ (action envNoUrls).2 ∧
    docNoUrls.imageUrls = [JsonVal.null] ∧
    allStrings docNoUrls.imageUrls = false := by
  refine ⟨rfl, ?_, rfl, rfl⟩
  rw [show (action envNoUrls).2 =
      [Call.textGen, Call.imageSearch queryGood, Call.createDoc docNoUrls]
    from rfl]
  exact List.Mem.tail _ (List.Mem.tail _ (List.Mem.head _))

/-- Claim C8 (amended): on every run, any document handed to the
document-store create call carries an `imageUrls` sequence of at most 3
entries; each entry is the result's `urls.regular` value when truthy and
`null` otherwise, so the entries need not all be URL strings (per the
counterexample). -/
theorem claim_C8_amended (env : Env) (doc : TripDoc)
    (h : Call.createDoc doc ∈ (action env).2) :
    doc.imageUrls.length ≤ 3 := by
  obtain ⟨b, g, f, c, n⟩ := env
  cases b with
  | error msg =>
    rw [action_bodyError _ msg rfl] at h
    exact absurd h (List.not_mem_nil _)
  | ok rd =>
    cases hnull : isNullVal rd with
    | true =>
      rw [action_nullBody _ rd rfl hnull] at h
      exact absurd h (List.not_mem_nil _)
    | false =>
      cases hv : requiredFieldsPresent rd with
      | false =>
        rw [action_invalid _ rd rfl hnull hv] at h
        exact absurd h (List.not_mem_nil _)
      | true =>
        rw [action_valid _ rd rfl hnull hv] at h
        cases g with
        | error m =>
          rw [runPipeline_genError _ rd m rfl] at h
          simp at h
        | ok txt =>
          cases hp : parseMarkdownToJson txt with
          | error m =>
            rw [runPipeline_parseError _ rd txt m rfl hp] at h
            simp at h
          | ok trip =>
            cases f with
            | error m =>
              rw [runPipeline_fetchError _ rd txt trip m rfl hp rfl] at h
              simp at h
            | ok fr =>
              obtain ⟨fok, fst, fj⟩ := fr
              cases fj with
              | error m =>
                rw [runPipeline_bodyError _ rd txt trip _ m rfl hp rfl rfl] at h
                simp at h
              | ok d =>
                cases hu : computeImageUrls d with
                | error m =>
                  rw [runPipeline_urlsError _ rd txt trip _ d m rfl hp rfl rfl
                    hu] at h
                  simp at h
                | ok urls =>
                  cases c with
                  | error m =>
                    rw [runPipeline_createError _ rd txt trip _ d urls m rfl hp
                      rfl rfl hu rfl] at h
                    simp at h
                    rw [h]
                    exact computeImageUrls_len d urls hu
                  | ok i =>
                    rw [runPipeline_success _ rd txt trip _ d urls i rfl hp rfl
                      rfl hu rfl] at h
                    simp at h
                    rw [h]
                    exact computeImageUrls_len d urls hu

/-- Witness for the amended claim C8 on the run that persists `[null]`. -/
theorem claim_C8_witness :
    Call.createDoc docNoUrls ∈ (action envNoUrls).2 ∧
    docNoUrls.imageUrls.length ≤ 3 := by
  have hm : Call.createDoc docNoUrls ∈ (action envNoUrls).2 := by
    rw [show (action envNoUrls).2 =
        [Call.textGen, Call.imageSearch queryGood, Call.createDoc docNoUrls]
      from rfl]
    exact List.Mem.tail _ (List.Mem.tail _ (List.Mem.head _))
  exact ⟨hm, claim_C8_amended envNoUrls docNoUrls hm⟩

/-- Claim C9: every request yields at most one document-store create call —
exactly one when the run responds with success (status 200, after generation,
parsing and image enrichment), none when the run ends in validation failure
(status 400), generation failure, or parse failure.  (A persistence failure
is the one case with a create call and a 500 response: the call was made and
threw.) -/
theorem claim_C9 (env : Env) :
    countCreate (action env).2 ≤ 1 ∧
    ((action env).1.status = 200 → countCreate (action env).2 = 1) ∧
    ((action env).1.status = 400 → countCreate (action env).2 = 0) ∧
    (∀ msg, env.genResult = Except.error msg →
      countCreate (action env).2 = 0) ∧
    (∀ txt err, env.genResult = Except.ok txt →
      parseMarkdownToJson txt = Except.error err →
      countCreate (action env).2 = 0) := by
  obtain ⟨b, g, f, c, n⟩ := env
  cases b with
  | error msg =>
    rw [action_bodyError _ msg rfl]
    exact ⟨Nat.zero_le 1,
      fun hh => absurd (show (500 : Nat) = 200 from hh) (by decide),
      fun hh => rfl,
      fun _ _ => rfl, fun _ _ _ _ => rfl⟩
  | ok rd =>
    cases hnull : isNullVal rd with
    | true =>
      rw [action_nullBody _ rd rfl hnull]
      exact ⟨Nat.zero_le 1,
      fun hh => absurd (show (500 : Nat) = 200 from hh) (by decide),
      fun hh => rfl,
        fun _ _ => rfl, fun _ _ _ _ => rfl⟩
    | false =>
      cases hv : requiredFieldsPresent rd with
      | false =>
        rw [action_invalid _ rd rfl hnull hv]
        exact ⟨Nat.zero_le 1,
          fun hh => absurd (show (400 : Nat) = 200 from hh) (by decide),
          fun hh => rfl,
          fun _ _ => rfl, fun _ _ _ _ => rfl⟩
      | true =>
        rw [action_valid _ rd rfl hnull hv]
        cases g with
        | error m =>
          rw [runPipeline_genError _ rd m rfl]
          exact ⟨Nat.zero_le 1,
      fun hh => absurd (show (500 : Nat) = 200 from hh) (by decide),
      fun hh => rfl,
            fun _ _ => rfl, fun txt _ h1 _ => Except.noConfusion h1⟩
        | ok txt =>
          cases hp : parseMarkdownToJson txt with
          | error m =>
            rw [runPipeline_parseError _ rd txt m rfl hp]
            exact ⟨Nat.zero_le 1,
      fun hh => absurd (show (500 : Nat) = 200 from hh) (by decide),
      fun hh => rfl,
              fun _ h1 => Except.noConfusion h1, fun _ _ _ _ => rfl⟩
          | ok trip =>
            have noPar : ∀ t e,
                (Except.ok txt : Except String String) = Except.ok t →
                parseMarkdownToJson t = Except.error e → False := by
              intro t e h1 h2
              cases h1
              rw [hp] at h2
              exact Except.noConfusion h2
            cases f with
            | error m =>
              rw [runPipeline_fetchError _ rd txt trip m rfl hp rfl]
              exact ⟨Nat.zero_le 1,
                fun hh => absurd (show (500 : Nat) = 200 from hh) (by decide),
                fun hh => rfl, fun _ h1 => Except.noConfusion h1,
                fun _ _ _ _ => rfl⟩
            | ok fr =>
              obtain ⟨fok, fst, fj⟩ := fr
              cases fj with
              | error m =>
                rw [runPipeline_bodyError _ rd txt trip _ m rfl hp rfl rfl]
                exact ⟨Nat.zero_le 1,
                fun hh => absurd (show (500 : Nat) = 200 from hh) (by decide),
                  fun hh => rfl, fun _ h1 => Except.noConfusion h1,
                  fun _ _ _ _ => rfl⟩
              | ok d =>
                cases hu : computeImageUrls d with
                | error m =>
                  rw [runPipeline_urlsError _ rd txt trip _ d m rfl hp rfl rfl
                    hu]
                  exact ⟨Nat.zero_le 1,
                fun hh => absurd (show (500 : Nat) = 200 from hh) (by decide),
                    fun hh => rfl, fun _ h1 => Except.noConfusion h1,
                    fun _ _ _ _ => rfl⟩
                | ok urls =>
                  cases c with
                  | error m =>
                    rw [runPipeline_createError _ rd txt trip _ d urls m rfl hp
                      rfl rfl hu rfl]
                    exact ⟨Nat.le_refl 1, fun hh => rfl,
                      fun hh => absurd (show (500 : Nat) = 400 from hh) (by decide),
                      fun _ h1 => Except.noConfusion h1,
                      fun t e h1 h2 => (noPar t e h1 h2).elim⟩
                  | ok i =>
                    rw [runPipeline_success _ rd txt trip _ d urls i rfl hp rfl
                      rfl hu rfl]
                    exact ⟨Nat.le_refl 1, fun hh => rfl,
                      fun hh => absurd (show (200 : Nat) = 400 from hh) (by decide),
                      fun _ h1 => Except.noConfusion h1,
                      fun t e h1 h2 => (noPar t e h1 h2).elim⟩

/-- Witness for claim C9 on the fully successful environment: status 200 and
exactly one create call. -/
theorem claim_C9_witness :
    (action envSuccess).1.status = 200 ∧
    countCreate (action envSuccess).2 ≤ 1 ∧
    countCreate (action envSuccess).2 = 1 :=
  ⟨rfl, (claim_C9 envSuccess).1, (claim_C9 envSuccess).2.1 rfl⟩
